import Mathlib

/-!
Shallow embedding of `src/lead_generator/crew.py` and its degraded-mode
execution contract.

The Python module performs a one-time import probe at module load
(lines 14-26), declares the `LeadOutput` pydantic schema of independently
optional fields (lines 43-51), and defines a `LeadGenerator` facade whose
`run` either delegates to the crew pipeline and catches every runtime
error into a fallback record (lines 142-156), or — when the engine is
unavailable — returns a fixed "Modo Limitado" record (lines 179-186).
The module-level queries `is_crewai_available` / `get_import_error`
(lines 193-199) read the probe state.

Python dictionaries of string keys and values are embedded as association
lists; `dict.get(key, default)` is an association-list lookup with a
default; exceptions are embedded as `Except String`.
-/

namespace LeadGen

/-- Inputs mapping handed to `run`: a Python dict with string keys and
string values, embedded as an association list. -/
def Inputs : Type := List (String × String)

/-- Embedding of `inputs.get(key)`: first binding for the key, if any. -/
def dictLookup (inputs : Inputs) (key : String) : Option String :=
  match inputs with
  | [] => none
  | (k, v) :: rest => if k = key then some v else dictLookup rest key

/-- Embedding of `inputs.get(key, default)` (crew.py lines 154 and 183). -/
def dictGet (inputs : Inputs) (key default : String) : String :=
  (dictLookup inputs key).getD default

/-- The `LeadOutput` pydantic schema (crew.py lines 43-51): every field is
independently optional and defaults to absent when the constructor omits
it. `location` is a string-to-string mapping; `key_decision_makers` is a
list of such mappings. -/
structure LeadOutput where
  company_name : Option String := none
  annual_revenue : Option String := none
  location : Option (List (String × String)) := none
  website_url : Option String := none
  review : Option String := none
  num_employees : Option Int := none
  key_decision_makers : Option (List (List (String × String))) := none
  score : Option Int := none
deriving DecidableEq, Repr

/-- `LeadGenerator._fallback_response` (crew.py lines 150-156): the record
returned when the delegation pipeline raises at runtime. -/
def fallback_response (inputs : Inputs) : LeadOutput :=
  { company_name := some "Erro na geração"
    review := some ("Houve um erro ao processar a solicitação: "
                     ++ dictGet inputs "topic" "N/A")
    score := some 0 }

/-- `LeadGenerator.run` of the CrewAI-available class (crew.py lines
142-148): `try: return self.crew().kickoff(inputs=inputs) except
Exception: return self._fallback_response(inputs)`. The external pipeline
is a parameter `kickoff` that either produces the structured output or
raises; the `try/except` converts every raise into the fallback record,
so the result is always `Except.ok`. -/
def run_available (kickoff : Inputs → Except String LeadOutput)
    (inputs : Inputs) : Except String LeadOutput :=
  match kickoff inputs with
  | Except.ok r => Except.ok r
  | Except.error _ => Except.ok (fallback_response inputs)

/-- `LeadGenerator.run` of the fallback class (crew.py lines 179-186):
the fixed "Modo Limitado" record built from `inputs.get('topic', 'N/A')`. -/
def run_unavailable (inputs : Inputs) : LeadOutput :=
  { company_name := some "Modo Limitado"
    review := some ("CrewAI indisponível. Tópico solicitado: "
                     ++ dictGet inputs "topic" "N/A")
    score := some 0
    location := some [("city", "N/A"), ("country", "N/A")] }

/-- The facade as the caller sees it: the module-level `if
CREWAI_AVAILABLE` (crew.py lines 59 and 158-160) selects which class
provides `run`. The fallback-class body is a plain constructor call and
cannot raise, hence `Except.ok`. -/
def LeadGenerator.run (crewai_available : Bool)
    (kickoff : Inputs → Except String LeadOutput)
    (inputs : Inputs) : Except String LeadOutput :=
  if crewai_available then run_available kickoff inputs
  else Except.ok (run_unavailable inputs)

/-- The process-wide probe state (crew.py lines 15-16): `CREWAI_AVAILABLE`
and `IMPORT_ERROR`. -/
structure EngineAvailability where
  available : Bool
  error : Option String
deriving DecidableEq, Repr

/-- The module-level import probe (crew.py lines 14-26): state starts as
`CREWAI_AVAILABLE = False, IMPORT_ERROR = None`; the `try` block of
imports either succeeds (setting `CREWAI_AVAILABLE = True`) or raises
(caught by `except Exception as e`, setting `IMPORT_ERROR = str(e)`). -/
def moduleInit (importCrewai : Except String Unit) : EngineAvailability :=
  let s : EngineAvailability := { available := false, error := none }
  match importCrewai with
  | Except.ok _ => { s with available := true }
  | Except.error e => { s with error := some e }

/-- `is_crewai_available` (crew.py lines 193-195): reads the probe state
and leaves it unchanged; the pair makes the absence of mutation explicit. -/
def is_crewai_available (s : EngineAvailability) : Bool × EngineAvailability :=
  (s.available, s)

/-- `get_import_error` (crew.py lines 197-199): reads the probe state and
leaves it unchanged. -/
def get_import_error (s : EngineAvailability) :
    Option String × EngineAvailability :=
  (s.error, s)

/-- One named task of the pipeline: its config key and the config keys of
the tasks passed as its `context`. -/
structure TaskDef where
  name : String
  context : List String
deriving DecidableEq, Repr

/-- `lead_generation_task` (crew.py lines 101-106): no context. -/
def lead_generation_task : TaskDef :=
  { name := "lead_generation_task", context := [] }

/-- `contact_research_task` (crew.py lines 108-113):
`context=[self.lead_generation_task()]`. -/
def contact_research_task : TaskDef :=
  { name := "contact_research_task", context := ["lead_generation_task"] }

/-- `lead_qualification_task` (crew.py lines 115-121):
`context=[self.lead_generation_task(), self.contact_research_task()]`. -/
def lead_qualification_task : TaskDef :=
  { name := "lead_qualification_task"
    context := ["lead_generation_task", "contact_research_task"] }

/-- `sales_management_task` (crew.py lines 123-129): context is the
generation, qualification and contact-research tasks. -/
def sales_management_task : TaskDef :=
  { name := "sales_management_task"
    context := ["lead_generation_task", "lead_qualification_task",
                "contact_research_task"] }

/-- The crew execution mode (crewai `Process`). -/
inductive CrewProcess where
  | sequential
  | hierarchical
deriving DecidableEq, Repr

/-- The crew object (crew.py lines 131-140): the four tasks in their
declaration order and `process=Process.sequential`. -/
structure CrewDef where
  tasks : List TaskDef
  process : CrewProcess
deriving DecidableEq, Repr

/-- `LeadGenerator.crew` (crew.py lines 131-140). -/
def leadGeneratorCrew : CrewDef :=
  { tasks := [lead_generation_task, contact_research_task,
              lead_qualification_task, sales_management_task]
    process := CrewProcess.sequential }

end LeadGen

namespace LeadGen

/-- C1: for every inputs mapping with a non-empty `topic`, and in both the
engine-available mode (for every behaviour of the delegation pipeline,
including raising) and the engine-unavailable mode, the facade `run`
returns a LeadResult and never propagates an exception: its result is
always `Except.ok`. -/
theorem run_never_raises (crewai_available : Bool)
    (kickoff : Inputs → Except String LeadOutput) (inputs : Inputs)
    (t : String) (htop : dictLookup inputs "topic" = some t)
    (hne : t ≠ "") :
    ∃ r : LeadOutput,
      LeadGenerator.run crewai_available kickoff inputs = Except.ok r := by
  unfold LeadGenerator.run run_available
  cases crewai_available with
  | false => exact ⟨run_unavailable inputs, rfl⟩
  | true =>
    simp only [if_pos]
    cases h : kickoff inputs with
    | ok r => exact ⟨r, by simp [h]⟩
    | error e => exact ⟨fallback_response inputs, by simp [h]⟩

/-- Witness for C1 at a concrete input: the run with topic "fintech" and a
raising pipeline returns `Except.ok` in both modes. -/
theorem run_never_raises_witness :
    (∃ r : LeadOutput,
      LeadGenerator.run true (fun _ => Except.error "boom")
        [("topic", "fintech")] = Except.ok r) ∧
    (∃ r : LeadOutput,
      LeadGenerator.run false (fun _ => Except.error "boom")
        [("topic", "fintech")] = Except.ok r) :=
  ⟨run_never_raises true (fun _ => Except.error "boom")
      [("topic", "fintech")] "fintech" (by decide) (by decide),
   run_never_raises false (fun _ => Except.error "boom")
      [("topic", "fintech")] "fintech" (by decide) (by decide)⟩

/-- C2: in engine-unavailable mode, for every inputs mapping containing a
`topic`, the result has `company_name = "Modo Limitado"`, `score = 0`,
`location = {city: "N/A", country: "N/A"}`, and a `review` containing the
literal topic value. -/
theorem run_unavailable_sentinels (inputs : Inputs) (t : String)
    (htop : dictLookup inputs "topic" = some t) :
    (run_unavailable inputs).company_name = some "Modo Limitado" ∧
    (run_unavailable inputs).score = some 0 ∧
    (run_unavailable inputs).location
      = some [("city", "N/A"), ("country", "N/A")] ∧
    ∃ pre post : String,
      (run_unavailable inputs).review = some (pre ++ t ++ post) := by
  refine ⟨rfl, rfl, rfl, "CrewAI indisponível. Tópico solicitado: ", "", ?_⟩
  simp [run_unavailable, dictGet, htop]

/-- Witness for C2 at the Scenario A input. -/
theorem run_unavailable_sentinels_witness :
    (run_unavailable [("topic", "fintech startups in Berlin")]).company_name
      = some "Modo Limitado" ∧
    (run_unavailable [("topic", "fintech startups in Berlin")]).score
      = some 0 ∧
    (run_unavailable [("topic", "fintech startups in Berlin")]).location
      = some [("city", "N/A"), ("country", "N/A")] ∧
    ∃ pre post : String,
      (run_unavailable [("topic", "fintech startups in Berlin")]).review
        = some (pre ++ "fintech startups in Berlin" ++ post) :=
  run_unavailable_sentinels [("topic", "fintech startups in Berlin")]
    "fintech startups in Berlin" (by decide)

/-- C3: in engine-available mode, when the delegation pipeline raises, the
facade returns the fallback record with `company_name = "Erro na
geração"`, `score = 0`, a `review` containing the literal topic value,
and no location sentinels (`location` absent): those are populated only
by the unavailability path. -/
theorem run_available_error_path
    (kickoff : Inputs → Except String LeadOutput) (inputs : Inputs)
    (e : String) (herr : kickoff inputs = Except.error e)
    (t : String) (htop : dictLookup inputs "topic" = some t) :
    run_available kickoff inputs = Except.ok (fallback_response inputs) ∧
    (fallback_response inputs).company_name = some "Erro na geração" ∧
    (fallback_response inputs).score = some 0 ∧
    (fallback_response inputs).location = none ∧
    ∃ pre post : String,
      (fallback_response inputs).review = some (pre ++ t ++ post) := by
  refine ⟨?_, rfl, rfl, rfl,
    "Houve um erro ao processar a solicitação: ", "", ?_⟩
  · simp [run_available, herr]
  · simp [fallback_response, dictGet, htop]

/-- Witness for C3 at a concrete raising pipeline and topic. -/
theorem run_available_error_path_witness :
    run_available (fun _ => Except.error "ConnectionError")
        [("topic", "fintech")]
      = Except.ok (fallback_response [("topic", "fintech")]) ∧
    (fallback_response [("topic", "fintech")]).company_name
      = some "Erro na geração" ∧
    (fallback_response [("topic", "fintech")]).score = some 0 ∧
    (fallback_response [("topic", "fintech")]).location = none ∧
    ∃ pre post : String,
      (fallback_response [("topic", "fintech")]).review
        = some (pre ++ "fintech" ++ post) :=
  run_available_error_path (fun _ => Except.error "ConnectionError")
    [("topic", "fintech")] "ConnectionError" rfl "fintech" (by decide)

/-- C4: every degraded result — whether from the runtime-failure fallback
or from the unavailable-mode run — has `company_name`, `review` and
`score` populated, while the LeadResult schema itself admits a value with
every field absent. -/
theorem degraded_fields_populated :
    (∀ inputs : Inputs,
      (fallback_response inputs).company_name.isSome = true ∧
      (fallback_response inputs).review.isSome = true ∧
      (fallback_response inputs).score.isSome = true) ∧
    (∀ inputs : Inputs,
      (run_unavailable inputs).company_name.isSome = true ∧
      (run_unavailable inputs).review.isSome = true ∧
      (run_unavailable inputs).score.isSome = true) ∧
    ∃ r : LeadOutput,
      r.company_name = none ∧ r.annual_revenue = none ∧
      r.location = none ∧ r.website_url = none ∧ r.review = none ∧
      r.num_employees = none ∧ r.key_decision_makers = none ∧
      r.score = none :=
  ⟨fun _ => ⟨rfl, rfl, rfl⟩, fun _ => ⟨rfl, rfl, rfl⟩,
   {}, rfl, rfl, rfl, rfl, rfl, rfl, rfl, rfl⟩

/-- C5: in engine-available mode, when the delegation pipeline completes
without raising, `run` returns the pipeline's structured output exactly,
field for field — the success branch is `return self.crew().kickoff(...)`
with no renaming and no drops. -/
theorem run_available_passthrough
    (kickoff : Inputs → Except String LeadOutput) (inputs : Inputs)
    (r : LeadOutput) (hok : kickoff inputs = Except.ok r) :
    run_available kickoff inputs = Except.ok r ∧
    ∀ r' : LeadOutput, run_available kickoff inputs = Except.ok r' →
      r'.company_name = r.company_name ∧
      r'.annual_revenue = r.annual_revenue ∧
      r'.location = r.location ∧
      r'.website_url = r.website_url ∧
      r'.review = r.review ∧
      r'.num_employees = r.num_employees ∧
      r'.key_decision_makers = r.key_decision_makers ∧
      r'.score = r.score := by
  have h : run_available kickoff inputs = Except.ok r := by
    simp [run_available, hok]
  refine ⟨h, fun r' hr' => ?_⟩
  have : r' = r := by
    rw [h] at hr'
    exact (Except.ok.injEq _ _ ▸ hr').symm
  subst this
  exact ⟨rfl, rfl, rfl, rfl, rfl, rfl, rfl, rfl⟩

/-- Witness for C5 at the Scenario C input: a pipeline returning a record
with score 9 passes through unchanged. -/
theorem run_available_passthrough_witness :
    run_available
        (fun _ => Except.ok { company_name := some "Acme", score := some 9 })
        [("topic", "fintech")]
      = Except.ok { company_name := some "Acme", score := some 9 } :=
  (run_available_passthrough
    (fun _ => Except.ok { company_name := some "Acme", score := some 9 })
    [("topic", "fintech")]
    { company_name := some "Acme", score := some 9 } rfl).1

/-- C6: the delegation path builds exactly four tasks in the fixed order
generation, contact research, qualification, management; the contact
research task's context is the generation task, the qualification task's
context is exactly the generation and contact-research tasks, the
management task's context is exactly the generation, qualification and
contact-research tasks, and the crew's process is sequential. -/
theorem crew_wiring_fixed :
    leadGeneratorCrew.tasks
      = [lead_generation_task, contact_research_task,
         lead_qualification_task, sales_management_task] ∧
    leadGeneratorCrew.tasks.length = 4 ∧
    contact_research_task.context = [lead_generation_task.name] ∧
    lead_qualification_task.context
      = [lead_generation_task.name, contact_research_task.name] ∧
    sales_management_task.context
      = [lead_generation_task.name, lead_qualification_task.name,
         contact_research_task.name] ∧
    leadGeneratorCrew.process = CrewProcess.sequential :=
  ⟨rfl, rfl, rfl, rfl, rfl, rfl⟩

/-- C7: the import probe terminates normally on every outcome of the
acquisition attempt: on success it records `available = true` with no
error, and on any failure it records `available = false` with the
diagnostic text — it never propagates the exception. -/
theorem probe_never_raises (outcome : Except String Unit) :
    (∀ u : Unit, outcome = Except.ok u →
      moduleInit outcome = { available := true, error := none }) ∧
    (∀ e : String, outcome = Except.error e →
      moduleInit outcome = { available := false, error := some e }) := by
  constructor
  · intro u h
    simp [moduleInit, h]
  · intro e h
    simp [moduleInit, h]

/-- Witness for C7 at a concrete success and a concrete failure. -/
theorem probe_never_raises_witness :
    moduleInit (Except.ok ()) = { available := true, error := none } ∧
    moduleInit (Except.error "No module named crewai")
      = { available := false, error := some "No module named crewai" } :=
  ⟨(probe_never_raises (Except.ok ())).1 () rfl,
   (probe_never_raises (Except.error "No module named crewai")).2
     "No module named crewai" rfl⟩

/-- C8: the probe state is written once and the queries never mutate it,
so two consecutive invocations of `is_crewai_available` return the same
boolean and two consecutive invocations of `get_import_error` return the
same optional diagnostic, for every probe outcome. -/
theorem probe_queries_stable (outcome : Except String Unit) :
    (is_crewai_available
        (is_crewai_available (moduleInit outcome)).2).1
      = (is_crewai_available (moduleInit outcome)).1 ∧
    (get_import_error (get_import_error (moduleInit outcome)).2).1
      = (get_import_error (moduleInit outcome)).1 ∧
    (is_crewai_available (moduleInit outcome)).2 = moduleInit outcome ∧
    (get_import_error (moduleInit outcome)).2 = moduleInit outcome :=
  ⟨rfl, rfl, rfl, rfl⟩

/-- C9: when the inputs mapping lacks the `topic` key entirely, both
degraded paths still terminate with a well-formed LeadResult and
substitute the literal "N/A" for the topic in the review message. -/
theorem missing_topic_uses_na (inputs : Inputs)
    (hmiss : dictLookup inputs "topic" = none) :
    (fallback_response inputs).review
      = some "Houve um erro ao processar a solicitação: N/A" ∧
    (run_unavailable inputs).review
      = some "CrewAI indisponível. Tópico solicitado: N/A" ∧
    (fallback_response inputs).company_name.isSome = true ∧
    (run_unavailable inputs).company_name.isSome = true := by
  refine ⟨?_, ?_, rfl, rfl⟩
  · simp [fallback_response, dictGet, hmiss]
  · simp [run_unavailable, dictGet, hmiss]

/-- Witness for C9 at the empty inputs mapping. -/
theorem missing_topic_uses_na_witness :
    (fallback_response []).review
      = some "Houve um erro ao processar a solicitação: N/A" ∧
    (run_unavailable []).review
      = some "CrewAI indisponível. Tópico solicitado: N/A" ∧
    (fallback_response []).company_name.isSome = true ∧
    (run_unavailable []).company_name.isSome = true :=
  missing_topic_uses_na [] rfl

/-- C10: the engine-unavailable run is deterministic and depends only on
the looked-up `topic` value: any two inputs mappings agreeing on the
`topic` lookup produce LeadResults equal in every field; in particular
two invocations on the same mapping agree. -/
theorem run_unavailable_deterministic (inputs₁ inputs₂ : Inputs)
    (hagree : dictLookup inputs₁ "topic" = dictLookup inputs₂ "topic") :
    run_unavailable inputs₁ = run_unavailable inputs₂ := by
  simp [run_unavailable, dictGet, hagree]

/-- Witness for C10: two mappings with the same topic but different other
keys produce identical results. -/
theorem run_unavailable_deterministic_witness :
    run_unavailable [("topic", "fintech"), ("max_leads", "3")]
      = run_unavailable [("topic", "fintech"), ("additional_info", "x")] :=
  run_unavailable_deterministic
    [("topic", "fintech"), ("max_leads", "3")]
    [("topic", "fintech"), ("additional_info", "x")] (by decide)

end LeadGen
